import Mathlib

/-!
Shallow embedding of the core of `src/streamlit_app.py` (a small rule-based
chemical "reaction engine"): the chemical catalog `CHEMICAL_DATA`, quantity
normalization `standardize_amount`, the reaction evaluator
`calculate_reaction`, and the color mixer `mix_colors`.

Modelling conventions:
* Python floats are modelled as exact rationals (`ℚ`); every constant in the
  source is an exact decimal, so this is faithful and keeps arithmetic exact.
* Python `dict` values (the catalog and the selection set) are modelled as
  insertion-ordered association lists `List (String × _)`; `x in d` is key
  membership, `d[k]` is `List.lookup`.
* A Python function that can raise (`KeyError` on a missing catalog key,
  `ZeroDivisionError` in the mixer on an empty list) is modelled as returning
  `Option`; `none` is the exception path.
* Hex color strings `"#RRGGBB"` are modelled by their parsed RGB triple,
  which is exactly what `mix_colors` extracts from them.
* The clause strings built by `calculate_reaction` are modelled by the
  inductive type `Clause`, one constructor per `desc.append` site in the
  source that can complete, carrying the exact rational the source would
  format with `:.3f`.  The code returns a single string: clauses joined by
  " | ", prefixed by a red "REACTION OCCURRED!" span iff
  `reaction_happened`; we model this as a record `ReactionResult` with the
  clause list and the `occurred` flag.
* Rule 2 (acid-carbonate gas evolution) can never append its clause: the
  f-string of its `desc.append` contains the replacement field {CO} (the
  braces of the intended LaTeX \text{CO}_2 are not doubled), and the name
  CO is undefined, so evaluating the f-string raises NameError whenever
  the append executes — both buckets non-empty and co2 > 0.
  `calculate_reaction` is therefore a fallible function, modelled as
  returning `Option ReactionResult` with `none` for this NameError path.
-/

/-- An RGB triple, the parsed form of a `"#RRGGBB"` hex color string. -/
structure Color where
  r : ℕ
  g : ℕ
  b : ℕ
deriving DecidableEq

/-- One value of the `CHEMICAL_DATA` dict in the source:
`{"mm": …, "type": …, "conc": …, "state": …, "color": …}`. -/
structure ChemData where
  mm : ℚ
  type : String
  conc : ℚ
  state : Char
  color : Color
deriving DecidableEq

/-- The static chemical catalog `CHEMICAL_DATA` from the source, an
insertion-ordered dict from chemical name to its data.  Colors are the RGB
triples of the source's hex strings. -/
def CHEMICAL_DATA : List (String × ChemData) := [
  ("Water (H2O)", ⟨18.02, "Solvent", 55.5, 'L', ⟨0x1E, 0x90, 0xFF⟩⟩),
  ("Sodium chloride (table salt)", ⟨58.44, "Ionic Solid", 0, 'S', ⟨0xF0, 0xF8, 0xFF⟩⟩),
  ("Vinegar (dilute acetic acid)", ⟨60.05, "Weak Acid", 0.85, 'L', ⟨0xFF, 0xFA, 0xCD⟩⟩),
  ("Baking soda (sodium bicarbonate)", ⟨84.01, "Carbonate Base", 0, 'S', ⟨0xF5, 0xF5, 0xDC⟩⟩),
  ("Sugar (sucrose)", ⟨342.3, "Molecular Solid", 0, 'S', ⟨0xFF, 0xFA, 0xFA⟩⟩),
  ("Ethanol (dilute)", ⟨46.07, "Molecular Liquid", 1.7, 'L', ⟨0xF0, 0xFF, 0xFF⟩⟩),
  ("Hydrochloric acid (very dilute)", ⟨36.46, "Strong Acid", 0.1, 'L', ⟨0xFF, 0xE4, 0xE1⟩⟩),
  ("Sodium hydroxide (very dilute)", ⟨40.00, "Strong Base", 0.1, 'L', ⟨0xFA, 0xFA, 0xD2⟩⟩),
  ("Hydrogen peroxide (3%)", ⟨34.01, "Oxidizer", 0.88, 'L', ⟨0xF0, 0xFF, 0xF0⟩⟩),
  ("Bleach (sodium hypochlorite, dilute)", ⟨74.44, "Oxidizer", 0.7, 'L', ⟨0xAD, 0xD8, 0xE6⟩⟩),
  ("Ammonia solution (household, dilute)", ⟨17.03, "Weak Base", 1.5, 'L', ⟨0xE0, 0xFF, 0xFF⟩⟩),
  ("Calcium carbonate (chalk)", ⟨100.09, "Carbonate Solid", 0, 'S', ⟨0xFF, 0xFA, 0xF0⟩⟩),
  ("Copper sulfate (dilute)", ⟨159.61, "Ionic Solution", 0.1, 'L', ⟨0x46, 0x82, 0xB4⟩⟩)
]

/-- The dict indexing `CHEMICAL_DATA[chemical]`; `none` is the `KeyError`
path for a name not in the catalog. -/
def chemLookup (chemical : String) : Option ChemData :=
  CHEMICAL_DATA.lookup chemical

/-- `standardize_amount(chemical, amount, unit)` from the source.  Looks the
chemical up in `CHEMICAL_DATA` (raising `KeyError` = `none` if unknown);
for a liquid converts the amount to liters (`/1000` when the unit is `"ml"`,
unchanged otherwise) and multiplies by the reference concentration; for a
solid divides the amount (grams) by the molar mass.  The source performs no
validation of `amount`. -/
def standardize_amount (chemical : String) (amount : ℚ) (unit : String) :
    Option ℚ :=
  match chemLookup chemical with
  | none => none
  | some data =>
    if data.state = 'L' then
      let volume_l := if unit = "ml" then amount / 1000 else amount
      some (data.conc * volume_l)
    else
      some (amount / data.mm)

/-- `mix_colors(colors)` from the source: componentwise sum of the channels,
floor-divided by the number of colors.  On an empty list the source's
`// len(colors)` raises `ZeroDivisionError`, modelled as `none`. -/
def mix_colors (colors : List Color) : Option Color :=
  if colors.length = 0 then none
  else
    some ⟨(colors.map Color.r).sum / colors.length,
          (colors.map Color.g).sum / colors.length,
          (colors.map Color.b).sum / colors.length⟩

/-- `b` is an initial segment of `l` (char-list version of Python's
startswith, used to implement the substring test below). -/
def listStartsWith : List Char → List Char → Bool
  | [], _ => true
  | _ :: _, [] => false
  | a :: as, b :: bs => a == b && listStartsWith as bs

/-- `needle` occurs contiguously inside `hay`. -/
def listHasSubstring (needle : List Char) : List Char → Bool
  | [] => listStartsWith needle []
  | c :: cs => listStartsWith needle (c :: cs) || listHasSubstring needle cs

/-- Python's `tag in s` substring test on strings, as used by the role/bucket
checks `'Acid' in chem['type']` etc. in `calculate_reaction`. -/
def hasTag (s tag : String) : Bool :=
  listHasSubstring tag.toList s.toList

/-- One value of the session's `selected_chemicals` dict: the per-selection
entry built at the `Add` button — amount, unit, derived moles, and the
type/color/state copied from the catalog. -/
structure Entry where
  amount : ℚ
  unit : String
  moles : ℚ
  type : String
  color : Color
  state : Char
deriving DecidableEq

/-- A selection set: the insertion-ordered dict from chemical name to its
`Entry`, passed to `calculate_reaction`. -/
abbrev Selection := List (String × Entry)

/-- One clause of the reaction description — one constructor per
`desc.append(...)` site in `calculate_reaction` that can complete, carrying
the exact rational the source interpolates (formatted `:.3f` for display).
Rule 2's gas-evolution append has no constructor: its f-string raises
NameError whenever it is evaluated (see the module comment), so the
program can never produce that clause. -/
inductive Clause where
  | neutralization (m : ℚ)
  | dissolving (name : String) (m : ℚ)
  | precipitation
  | singleChem
  | noKnown
deriving DecidableEq

/-- The literal text of each clause as built in the source.  Where the
source formats a float with `:.3f`, the exact rational is printed instead
(the numeric formatting is display-only and abstracted here). -/
def Clause.text : Clause → String
  | .neutralization m =>
      "**Neutralization!** Salt and water formed. Reacted: $\\approx " ++
        toString m ++ "$ mol"
  | .dissolving name m =>
      "**Dissolving!** " ++ name ++ " dissolved in water ($\\approx " ++
        toString m ++ "$ mol)"
  | .precipitation =>
      "**Precipitation!** Blue copper hydroxide solid formed. (Simplified)"
  | .singleChem => "Single chemical selected. No reaction."
  | .noKnown => "No known reaction. Likely a simple mixture or dissolution."

/-- The evaluator's result: `occurred` is whether `reaction_happened` was set
(the red "REACTION OCCURRED!" prefix), `desc` the ordered clause list the
source joins with " | ". -/
structure ReactionResult where
  occurred : Bool
  desc : List Clause
deriving DecidableEq

/-- The `acids` dict comprehension: entries whose type contains `"Acid"`. -/
def acidsOf (selected : Selection) : Selection :=
  selected.filter fun p => hasTag p.2.type "Acid"

/-- The `bases` dict comprehension: entries whose type contains `"Base"`. -/
def basesOf (selected : Selection) : Selection :=
  selected.filter fun p => hasTag p.2.type "Base"

/-- The `carbonates` dict comprehension: entries whose type contains
`"Carbonate"`. -/
def carbonatesOf (selected : Selection) : Selection :=
  selected.filter fun p => hasTag p.2.type "Carbonate"

/-- The `solids` dict comprehension: solid-state entries whose type contains
neither `"Acid"` nor `"Base"`. -/
def solidsOf (selected : Selection) : Selection :=
  selected.filter fun p =>
    p.2.state == 'S' && !hasTag p.2.type "Acid" && !hasTag p.2.type "Base"

/-- `sum(c['moles'] for c in d.values())` over a selection dict. -/
def molesSum (d : Selection) : ℚ :=
  (d.map fun p => p.2.moles).sum

/-- `acid_moles` in the source (`sum(...) if acids else 0`; the sum over an
empty dict is 0 as well, so the guard is the identity). -/
def acidMolesOf (selected : Selection) : ℚ :=
  molesSum (acidsOf selected)

/-- `base_moles` in the source. -/
def baseMolesOf (selected : Selection) : ℚ :=
  molesSum (basesOf selected)

/-- Python's `name in selected` key-membership test on the selection dict. -/
def hasKey (selected : Selection) (name : String) : Bool :=
  selected.any fun p => p.1 == name

/-- Rule 1 of `calculate_reaction` (acid-base neutralization): if
`acid_moles > 0 and base_moles > 0`, append a neutralization clause with
`min(acid_moles, base_moles)`. -/
def neutralizationClauses (selected : Selection) : List Clause :=
  if acidMolesOf selected > 0 ∧ baseMolesOf selected > 0 then
    [Clause.neutralization (min (acidMolesOf selected) (baseMolesOf selected))]
  else []

/-- `total_carbonate_moles` in the source (computed inside rule 2). -/
def carbonateMolesOf (selected : Selection) : ℚ :=
  molesSum (carbonatesOf selected)

/-- Rule 2 (acid-carbonate gas evolution): if both `acids` and `carbonates`
are non-empty dicts, the source computes
`co2 = min(acid_moles, total_carbonate_moles)` and, when `co2 > 0`,
executes its `desc.append` — which evaluates an f-string whose replacement
field {CO} names an undefined variable and raises NameError, so
`calculate_reaction` never returns.  This predicate is that crash
condition; when it is false, rule 2 appends nothing. -/
def gasRuleRaises (selected : Selection) : Prop :=
  acidsOf selected ≠ [] ∧ carbonatesOf selected ≠ [] ∧
    min (acidMolesOf selected) (carbonateMolesOf selected) > 0

/-- Rule 3 (dissolution): if `'Water (H2O)' in selected` and `solids` is
non-empty, one dissolving clause per solid entry with positive moles.
(The `and solids` guard is absorbed by the loop over `solids`.) -/
def dissolutionClauses (selected : Selection) : List Clause :=
  if hasKey selected "Water (H2O)" then
    (solidsOf selected).filterMap fun p =>
      if p.2.moles > 0 then some (Clause.dissolving p.1 p.2.moles) else none
  else []

/-- Rule 4 (specific precipitation): if `'Copper sulfate (dilute)' in
selected` and `bases` is non-empty, append the fixed precipitation clause.
No moles are inspected. -/
def precipitationClauses (selected : Selection) : List Clause :=
  if hasKey selected "Copper sulfate (dilute)" ∧ basesOf selected ≠ [] then
    [Clause.precipitation]
  else []

instance (selected : Selection) : Decidable (gasRuleRaises selected) := by
  unfold gasRuleRaises
  infer_instance

/-- The `desc` list after rules 1-4 of `calculate_reaction` in source
order, on runs where rule 2 does not raise (rule 2 then appends nothing).
`reaction_happened` is set exactly when one of these rules appends a
clause, so it equals `ruleClauses selected ≠ []`. -/
def ruleClauses (selected : Selection) : List Clause :=
  neutralizationClauses selected ++
    dissolutionClauses selected ++ precipitationClauses selected

/-- `calculate_reaction(selected)` from the source: apply rules 1-4.  If
rule 2's append executes, the function raises NameError (the broken
f-string) and returns nothing — `none`.  Otherwise, if no clause was
produced, fall back to the single-chemical clause when exactly one entry
is selected, else the generic no-known-reaction clause; `occurred` mirrors
`reaction_happened`. -/
def calculate_reaction (selected : Selection) : Option ReactionResult :=
  if gasRuleRaises selected then none
  else if ruleClauses selected = [] then
    if selected.length = 1 then some ⟨false, [Clause.singleChem]⟩
    else some ⟨false, [Clause.noKnown]⟩
  else some ⟨true, ruleClauses selected⟩

/-! ### General lemmas about the embedding -/

/-- A successful association-list lookup returns a pair of the list. -/
theorem lookup_mem {l : List (String × ChemData)} {k : String} {v : ChemData}
    (h : l.lookup k = some v) : (k, v) ∈ l := by
  induction l with
  | nil => simp [List.lookup] at h
  | cons p t ih =>
    obtain ⟨k', v'⟩ := p
    simp only [List.lookup] at h
    split at h
    · next heq =>
      obtain rfl := Option.some.inj h
      exact List.mem_cons.2 (Or.inl (by rw [eq_of_beq heq]))
    · exact List.mem_cons.2 (Or.inr (ih h))

/-- A successful catalog lookup returns a pair of `CHEMICAL_DATA`. -/
theorem mem_of_chemLookup {k : String} {v : ChemData}
    (h : chemLookup k = some v) : (k, v) ∈ CHEMICAL_DATA :=
  lookup_mem h

/-- If every entry of a selection has zero moles, every moles sum over a
sub-dict of it is zero. -/
theorem molesSum_filter_eq_zero {sel : Selection}
    (h : ∀ p ∈ sel, p.2.moles = 0) (f : String × Entry → Bool) :
    molesSum (sel.filter f) = 0 := by
  unfold molesSum
  apply List.sum_eq_zero
  intro x hx
  obtain ⟨p, hp, rfl⟩ := List.mem_map.1 hx
  exact h p (List.mem_filter.1 hp).1

/-! ### C1 — empty selection -/

/-- The empty selection produces no rule clause. -/
theorem ruleClauses_nil : ruleClauses [] = [] := by
  simp [ruleClauses, neutralizationClauses, dissolutionClauses,
    precipitationClauses, acidMolesOf, baseMolesOf, carbonateMolesOf,
    acidsOf, basesOf, carbonatesOf, solidsOf, molesSum, hasKey]

/-- The empty selection has an empty acids bucket, so rule 2 cannot
raise. -/
theorem not_gasRuleRaises_nil : ¬gasRuleRaises [] := by
  rintro ⟨ha, -, -⟩
  exact ha rfl

/-- C1 (counterexample): on the empty selection the evaluator returns
`occurred = false` with the generic no-known-reaction clause, whose text is
not the claimed message "no chemicals selected" — no such message exists in
the code. -/
theorem calculate_reaction_empty_message_cex :
    calculate_reaction [] = some ⟨false, [Clause.noKnown]⟩ ∧
      Clause.text Clause.noKnown ≠ "no chemicals selected" := by
  constructor
  · unfold calculate_reaction
    rw [if_neg not_gasRuleRaises_nil, if_pos ruleClauses_nil]
    simp
  · decide

/-- C1 (amended): for the empty selection set the evaluator does not fail
and returns `occurred = false` with the single generic clause
"No known reaction. Likely a simple mixture or dissolution." (the empty
selection takes the generic fallback branch; the code has no dedicated
empty-selection message). -/
theorem calculate_reaction_empty_noKnown :
    calculate_reaction [] = some ⟨false, [Clause.noKnown]⟩ ∧
      Clause.text Clause.noKnown =
        "No known reaction. Likely a simple mixture or dissolution." := by
  constructor
  · unfold calculate_reaction
    rw [if_neg not_gasRuleRaises_nil, if_pos ruleClauses_nil]
    simp
  · rfl

/-! ### C2 — normalization at zero and failure condition -/

/-- C2 (counterexample): `standardize_amount` performs no validation of the
amount — for a known chemical and a negative amount it succeeds (returning
negative moles) instead of failing as the claim states. -/
theorem standardize_amount_negative_succeeds_cex :
    (-1 : ℚ) < 0 ∧
      standardize_amount "Water (H2O)" (-1) "ml" = some (-111 / 2000) := by
  constructor
  · norm_num
  · norm_num [standardize_amount, chemLookup, CHEMICAL_DATA, List.lookup]

/-- C2 (amended): for every chemical in the catalog and every unit,
normalizing amount 0 succeeds and yields 0 moles; and `standardize_amount`
fails (the `KeyError` path) exactly when the chemical name is not in the
catalog — a negative amount is not rejected. -/
theorem standardize_amount_zero_and_failure :
    (∀ (chemical : String) (unit : String), (chemLookup chemical).isSome →
        standardize_amount chemical 0 unit = some 0) ∧
    (∀ (chemical : String) (amount : ℚ) (unit : String),
        (standardize_amount chemical amount unit).isSome ↔
          (chemLookup chemical).isSome) := by
  constructor
  · intro chemical unit h
    obtain ⟨data, hd⟩ := Option.isSome_iff_exists.1 h
    by_cases hs : data.state = 'L' <;> by_cases hu : unit = "ml" <;>
      simp [standardize_amount, hd, hs, hu]
  · intro chemical amount unit
    cases hl : chemLookup chemical with
    | none => simp [standardize_amount, hl]
    | some data =>
      by_cases hs : data.state = 'L' <;> simp [standardize_amount, hl, hs]

/-- C2 witness: concrete instance of the amended claim at Water and Sugar. -/
theorem standardize_amount_zero_and_failure_witness :
    ((chemLookup "Water (H2O)").isSome ∧
      standardize_amount "Water (H2O)" 0 "ml" = some 0) ∧
    ((standardize_amount "Sugar (sucrose)" 5 "g").isSome ↔
      (chemLookup "Sugar (sucrose)").isSome) := by
  refine ⟨⟨rfl, ?_⟩, ?_⟩
  · exact standardize_amount_zero_and_failure.1 "Water (H2O)" "ml" rfl
  · exact standardize_amount_zero_and_failure.2 "Sugar (sucrose)" 5 "g"

/-! ### C4 — color mixer on the empty list -/

/-- C4: `mix_colors` applied to the empty color list fails (the source's
`// len(colors)` raises on zero; modelled as `none`). -/
theorem mix_colors_empty_fails : mix_colors [] = none := rfl

/-! ### C3 — zero-moles entries and the rules -/

/-- A selection of copper sulfate and sodium hydroxide in which every entry
has zero moles (amount 0 of each). -/
def cuso4ZeroSel : Selection :=
  [("Copper sulfate (dilute)",
      ⟨0, "ml", 0, "Ionic Solution", ⟨0x46, 0x82, 0xB4⟩, 'L'⟩),
   ("Sodium hydroxide (very dilute)",
      ⟨0, "ml", 0, "Strong Base", ⟨0xFA, 0xFA, 0xD2⟩, 'L'⟩)]

/-- C3 (counterexample): a selection whose entries all have zero moles can
still make a rule fire — the precipitation rule checks only presence of
copper sulfate and a base-tagged entry, never moles, so this all-zero
selection yields `occurred = true` with a precipitation clause. -/
theorem precipitation_zero_moles_cex :
    cuso4ZeroSel.all (fun p => decide (p.2.moles = 0)) = true ∧
      calculate_reaction cuso4ZeroSel = some ⟨true, [Clause.precipitation]⟩ := by
  have t1 : hasTag "Ionic Solution" "Acid" = false := by decide
  have t2 : hasTag "Ionic Solution" "Base" = false := by decide
  have t3 : hasTag "Ionic Solution" "Carbonate" = false := by decide
  have t4 : hasTag "Strong Base" "Acid" = false := by decide
  have t5 : hasTag "Strong Base" "Base" = true := by decide
  have t6 : hasTag "Strong Base" "Carbonate" = false := by decide
  have n1 : "Copper sulfate (dilute)" ≠ "Water (H2O)" := by decide
  have n2 : "Sodium hydroxide (very dilute)" ≠ "Water (H2O)" := by decide
  have n3 : "Sodium hydroxide (very dilute)" ≠ "Copper sulfate (dilute)" := by
    decide
  constructor
  · simp [cuso4ZeroSel]
  · norm_num [calculate_reaction, gasRuleRaises, ruleClauses,
      neutralizationClauses, dissolutionClauses, precipitationClauses,
      acidMolesOf, baseMolesOf, carbonateMolesOf, acidsOf, basesOf,
      carbonatesOf, solidsOf, molesSum, hasKey, cuso4ZeroSel, t1, t2, t3,
      t4, t5, t6, n1, n2, n3]

/-- C3 (amended): on a selection whose entries all have zero moles, the
neutralization and dissolution rules emit nothing and rule 2's broken
gas-evolution append is not reached (zero entries contribute 0 to all
sums, so co2 = 0), so the evaluator returns a result that reports a
reaction exactly when the moles-blind precipitation rule fires: copper
sulfate present together with a base-tagged entry. -/
theorem zero_moles_occurred_iff_precipitation (sel : Selection)
    (h : ∀ p ∈ sel, p.2.moles = 0) :
    ∃ r, calculate_reaction sel = some r ∧
      (r.occurred = true ↔
        (hasKey sel "Copper sulfate (dilute)" = true ∧ basesOf sel ≠ [])) := by
  have hA : acidMolesOf sel = 0 := molesSum_filter_eq_zero h _
  have hC : carbonateMolesOf sel = 0 := molesSum_filter_eq_zero h _
  have hnog : ¬gasRuleRaises sel := by
    rintro ⟨-, -, hpos⟩
    rw [hA, hC] at hpos
    simp at hpos
  have h1 : neutralizationClauses sel = [] := by
    unfold neutralizationClauses
    rw [hA]
    simp
  have h3 : dissolutionClauses sel = [] := by
    unfold dissolutionClauses
    split
    · apply List.filterMap_eq_nil_iff.2
      intro p hp
      rw [if_neg]
      rw [h p (List.mem_filter.1 hp).1]
      norm_num
    · rfl
  have hrule : ruleClauses sel = precipitationClauses sel := by
    unfold ruleClauses
    rw [h1, h3]
    rfl
  unfold calculate_reaction
  rw [if_neg hnog, hrule]
  by_cases hc : hasKey sel "Copper sulfate (dilute)" = true ∧ basesOf sel ≠ []
  · have hp : precipitationClauses sel = [Clause.precipitation] := by
      unfold precipitationClauses
      rw [if_pos hc]
    rw [hp]
    refine ⟨⟨true, [Clause.precipitation]⟩, by simp, by simp [hc]⟩
  · have hp : precipitationClauses sel = [] := by
      unfold precipitationClauses
      rw [if_neg hc]
    rw [hp]
    simp only [if_pos rfl]
    by_cases hl : sel.length = 1
    · rw [if_pos hl]
      refine ⟨⟨false, [Clause.singleChem]⟩, rfl, ?_⟩
      constructor
      · intro hff
        exact absurd hff (by decide)
      · intro hcc
        exact absurd hcc hc
    · rw [if_neg hl]
      refine ⟨⟨false, [Clause.noKnown]⟩, rfl, ?_⟩
      constructor
      · intro hff
        exact absurd hff (by decide)
      · intro hcc
        exact absurd hcc hc

/-- A single weak-acid entry with zero moles. -/
def zeroAcidSel : Selection :=
  [("Vinegar (dilute acetic acid)",
      ⟨0, "ml", 0, "Weak Acid", ⟨0xFF, 0xFA, 0xCD⟩, 'L'⟩)]

/-- C3 witness: the amended claim at a concrete all-zero selection without
copper sulfate — no reaction is reported. -/
theorem zero_moles_occurred_iff_precipitation_witness :
    zeroAcidSel.all (fun p => decide (p.2.moles = 0)) = true ∧
      ∃ r, calculate_reaction zeroAcidSel = some r ∧
        (r.occurred = true ↔
          (hasKey zeroAcidSel "Copper sulfate (dilute)" = true ∧
            basesOf zeroAcidSel ≠ [])) := by
  constructor
  · simp [zeroAcidSel]
  · apply zero_moles_occurred_iff_precipitation
    intro p hp
    simp only [zeroAcidSel, List.mem_singleton] at hp
    rw [hp]

/-! ### C5 and C6 — the acid + carbonate-base selection -/

/-- The vinegar entry of the acid + carbonate scenario: 10 ml of 0.85 M
acetic acid, 17/2000 mol. -/
def vinegarE : Entry := ⟨10, "ml", 17/2000, "Weak Acid", ⟨0xFF, 0xFA, 0xCD⟩, 'L'⟩

/-- The baking-soda entry of the scenario: 10 g, type "Carbonate Base",
1000/8401 mol. -/
def sodaE : Entry := ⟨10, "g", 1000/8401, "Carbonate Base", ⟨0xF5, 0xF5, 0xDC⟩, 'S'⟩

/-- The scenario selection: a weak acid together with the carbonate-base
chemical, both with positive moles. -/
def acidSodaSel : Selection :=
  [("Vinegar (dilute acetic acid)", vinegarE),
   ("Baking soda (sodium bicarbonate)", sodaE)]

/-- The acid bucket of the scenario selection holds exactly the vinegar
entry. -/
theorem acidSodaSel_acids :
    acidsOf acidSodaSel = [("Vinegar (dilute acetic acid)", vinegarE)] := by
  have wA : hasTag "Weak Acid" "Acid" = true := by decide
  have cbA : hasTag "Carbonate Base" "Acid" = false := by decide
  simp [acidsOf, acidSodaSel, vinegarE, sodaE, wA, cbA]

/-- The base bucket of the scenario selection holds exactly the baking-soda
entry. -/
theorem acidSodaSel_bases :
    basesOf acidSodaSel = [("Baking soda (sodium bicarbonate)", sodaE)] := by
  have wB : hasTag "Weak Acid" "Base" = false := by decide
  have cbB : hasTag "Carbonate Base" "Base" = true := by decide
  simp [basesOf, acidSodaSel, vinegarE, sodaE, wB, cbB]

/-- The carbonate bucket of the scenario selection also holds exactly the
baking-soda entry — the "Carbonate Base" type matches both keywords. -/
theorem acidSodaSel_carbs :
    carbonatesOf acidSodaSel =
      [("Baking soda (sodium bicarbonate)", sodaE)] := by
  have wC : hasTag "Weak Acid" "Carbonate" = false := by decide
  have cbC : hasTag "Carbonate Base" "Carbonate" = true := by decide
  simp [carbonatesOf, acidSodaSel, vinegarE, sodaE, wC, cbC]

/-- The acid moles sum of the scenario selection. -/
theorem acidSodaSel_acidMoles : acidMolesOf acidSodaSel = 17/2000 := by
  rw [acidMolesOf, acidSodaSel_acids]
  simp [molesSum, vinegarE]

/-- The base moles sum of the scenario selection. -/
theorem acidSodaSel_baseMoles : baseMolesOf acidSodaSel = 1000/8401 := by
  rw [baseMolesOf, acidSodaSel_bases]
  simp [molesSum, sodaE]

/-- The carbonate moles sum of the scenario selection. -/
theorem acidSodaSel_carbMoles : carbonateMolesOf acidSodaSel = 1000/8401 := by
  rw [carbonateMolesOf, acidSodaSel_carbs]
  simp [molesSum, sodaE]

/-- On the scenario selection the evaluator raises: acids and carbonates
are non-empty, co2 = min(17/2000, 1000/8401) > 0, so rule 2 evaluates its
broken f-string and NameError propagates — no result is returned. -/
theorem acidSodaSel_crash : calculate_reaction acidSodaSel = none := by
  have hraise : gasRuleRaises acidSodaSel := by
    refine ⟨?_, ?_, ?_⟩
    · rw [acidSodaSel_acids]
      simp
    · rw [acidSodaSel_carbs]
      simp
    · rw [acidSodaSel_acidMoles, acidSodaSel_carbMoles]
      exact lt_min (by norm_num) (by norm_num)
  unfold calculate_reaction
  rw [if_pos hraise]

/-- C5 (code evaluated at the failing input): on the vinegar + baking-soda
selection the acid and base moles sums are both positive — the claim (and
the spec's neutralization rule) promises a returned description carrying
the neutralization clause with `min(acid_moles, base_moles)` and
`occurred = true` — but the evaluator raises NameError in rule 2's
gas-clause f-string (undefined replacement field CO) and returns
nothing. -/
theorem neutralization_gas_crash_failing_input :
    acidMolesOf acidSodaSel > 0 ∧ baseMolesOf acidSodaSel > 0 ∧
      calculate_reaction acidSodaSel = none := by
  refine ⟨?_, ?_, acidSodaSel_crash⟩
  · rw [acidSodaSel_acidMoles]
    norm_num
  · rw [acidSodaSel_baseMoles]
    norm_num

/-- C6 (code evaluated at the failing input): the baking-soda entry, typed
"Carbonate Base", is counted in both the bases and the carbonates buckets
— bucket membership is the non-exclusive substring test — and both its
sums equal its moles; with the positive-moles acid selected, the
neutralization and gas-evolution conditions both hold, but instead of
returning a description with both clauses the evaluator raises NameError
while building the gas-evolution clause. -/
theorem carbonate_base_buckets_gas_crash_failing_input :
    ("Baking soda (sodium bicarbonate)", sodaE) ∈ basesOf acidSodaSel ∧
      ("Baking soda (sodium bicarbonate)", sodaE) ∈ carbonatesOf acidSodaSel ∧
      baseMolesOf acidSodaSel = sodaE.moles ∧
      carbonateMolesOf acidSodaSel = sodaE.moles ∧
      hasTag vinegarE.type "Acid" = true ∧ 0 < vinegarE.moles ∧
      calculate_reaction acidSodaSel = none := by
  refine ⟨?_, ?_, ?_, ?_, by decide, by norm_num [vinegarE], acidSodaSel_crash⟩
  · rw [acidSodaSel_bases]
    simp
  · rw [acidSodaSel_carbs]
    simp
  · rw [acidSodaSel_baseMoles]
    rfl
  · rw [acidSodaSel_carbMoles]
    rfl


/-! ### C7 — liquid normalization: unit consistency and linearity -/

/-- C7: for every liquid chemical of the catalog, normalizing 1000 ml gives
the same moles as normalizing 1 l, and for a fixed unit the result is
linear in the amount. -/
theorem liquid_normalization_consistent_linear :
    ∀ (chemical : String) (data : ChemData), chemLookup chemical = some data →
      data.state = 'L' →
      (standardize_amount chemical 1000 "ml" =
        standardize_amount chemical 1 "l") ∧
      (∀ (k a : ℚ) (unit : String),
        standardize_amount chemical (k * a) unit =
          (standardize_amount chemical a unit).map fun m => k * m) := by
  intro chemical data hd hs
  have hne : ("l" : String) ≠ "ml" := by decide
  constructor
  · have h1000 : (1000 : ℚ) / 1000 = 1 := by norm_num
    simp [standardize_amount, hd, hs, hne, h1000]
  · intro k a unit
    by_cases hu : unit = "ml" <;> simp [standardize_amount, hd, hs, hu] <;> ring

/-- C7 witness: unit consistency and linearity (k = 2, a = 3, unit ml)
instantiated at Water. -/
theorem liquid_normalization_consistent_linear_witness :
    chemLookup "Water (H2O)" =
        some ⟨18.02, "Solvent", 55.5, 'L', ⟨0x1E, 0x90, 0xFF⟩⟩ ∧
      (⟨18.02, "Solvent", 55.5, 'L', ⟨0x1E, 0x90, 0xFF⟩⟩ : ChemData).state =
        'L' ∧
      standardize_amount "Water (H2O)" 1000 "ml" =
        standardize_amount "Water (H2O)" 1 "l" ∧
      standardize_amount "Water (H2O)" (2 * 3) "ml" =
        (standardize_amount "Water (H2O)" 3 "ml").map fun m => 2 * m := by
  have hd : chemLookup "Water (H2O)" =
      some ⟨18.02, "Solvent", 55.5, 'L', ⟨0x1E, 0x90, 0xFF⟩⟩ := rfl
  exact ⟨hd, rfl,
    (liquid_normalization_consistent_linear _ _ hd rfl).1,
    (liquid_normalization_consistent_linear _ _ hd rfl).2 2 3 "ml"⟩

/-! ### C8 — solid normalization is unscaled -/

/-- C8: for every solid chemical of the catalog and every nonnegative
amount, normalization returns exactly `amount / molarMass`, with no
implicit scaling of the input mass. -/
theorem solid_normalization_unscaled :
    ∀ (chemical : String) (data : ChemData), chemLookup chemical = some data →
      data.state = 'S' → ∀ (amount : ℚ), 0 ≤ amount → ∀ (unit : String),
        standardize_amount chemical amount unit = some (amount / data.mm) := by
  intro chemical data hd hs amount _ unit
  have hne : data.state ≠ 'L' := by rw [hs]; decide
  simp [standardize_amount, hd, hne]

/-- C8 witness: 10 g of table salt normalizes to `10 / 58.44` mol. -/
theorem solid_normalization_unscaled_witness :
    chemLookup "Sodium chloride (table salt)" =
        some ⟨58.44, "Ionic Solid", 0, 'S', ⟨0xF0, 0xF8, 0xFF⟩⟩ ∧
      (⟨58.44, "Ionic Solid", 0, 'S', ⟨0xF0, 0xF8, 0xFF⟩⟩ : ChemData).state =
        'S' ∧
      (0 : ℚ) ≤ 10 ∧
      standardize_amount "Sodium chloride (table salt)" 10 "g" =
        some (10 / 58.44) := by
  have hd : chemLookup "Sodium chloride (table salt)" =
      some ⟨58.44, "Ionic Solid", 0, 'S', ⟨0xF0, 0xF8, 0xFF⟩⟩ := rfl
  exact ⟨hd, rfl, by norm_num,
    solid_normalization_unscaled _ _ hd rfl 10 (by norm_num) "g"⟩

/-! ### C9 — a single selected chemical never reacts -/

/-- Catalog scan: no catalog role is tagged both acid and base, none is
tagged both acid and carbonate, Water is not a solid, and copper sulfate is
not base-tagged — the facts that make every rule inapplicable to a
one-entry selection. -/
theorem catalog_single_entry_safe :
    CHEMICAL_DATA.all (fun p =>
      (!(hasTag p.2.type "Acid" && hasTag p.2.type "Base")) &&
      (!(hasTag p.2.type "Acid" && hasTag p.2.type "Carbonate")) &&
      (!(p.1 == "Water (H2O)" && p.2.state == 'S')) &&
      (!(p.1 == "Copper sulfate (dilute)" && hasTag p.2.type "Base"))) =
      true := by
  decide

/-- On a one-entry selection, the four negative conditions above force every
rule to emit nothing (in particular rule 2's raising append is never
reached), so the evaluator returns the single-chemical clause with
`occurred = false`. -/
theorem calculate_reaction_singleton (name : String) (e : Entry)
    (h1 : ¬(hasTag e.type "Acid" = true ∧ hasTag e.type "Base" = true))
    (h2 : ¬(hasTag e.type "Acid" = true ∧ hasTag e.type "Carbonate" = true))
    (h3 : ¬(name = "Water (H2O)" ∧ e.state = 'S'))
    (h4 : ¬(name = "Copper sulfate (dilute)" ∧ hasTag e.type "Base" = true)) :
    calculate_reaction [(name, e)] = some ⟨false, [Clause.singleChem]⟩ := by
  have hn : neutralizationClauses [(name, e)] = [] := by
    unfold neutralizationClauses
    rw [if_neg]
    rintro ⟨ha, hb⟩
    cases tA : hasTag e.type "Acid" with
    | false =>
      have hz : acidMolesOf [(name, e)] = 0 := by
        simp [acidMolesOf, acidsOf, molesSum, tA]
      rw [hz] at ha
      exact absurd ha (lt_irrefl 0)
    | true =>
      cases tB : hasTag e.type "Base" with
      | false =>
        have hz : baseMolesOf [(name, e)] = 0 := by
          simp [baseMolesOf, basesOf, molesSum, tB]
        rw [hz] at hb
        exact absurd hb (lt_irrefl 0)
      | true => exact h1 ⟨tA, tB⟩
  have hnog : ¬gasRuleRaises [(name, e)] := by
    rintro ⟨ha, hc, -⟩
    cases tA : hasTag e.type "Acid" with
    | false => exact ha (by simp [acidsOf, tA])
    | true =>
      cases tC : hasTag e.type "Carbonate" with
      | false => exact hc (by simp [carbonatesOf, tC])
      | true => exact h2 ⟨tA, tC⟩
  have hdis : dissolutionClauses [(name, e)] = [] := by
    unfold dissolutionClauses
    by_cases hw : name = "Water (H2O)"
    · rw [if_pos (by simp [hasKey, hw])]
      have hs : (e.state == 'S') = false :=
        beq_eq_false_iff_ne.2 fun hse => h3 ⟨hw, hse⟩
      simp [solidsOf, hs]
    · rw [if_neg (by simp [hasKey, hw])]
  have hpr : precipitationClauses [(name, e)] = [] := by
    unfold precipitationClauses
    rw [if_neg]
    rintro ⟨hcu, hbs⟩
    have hname : name = "Copper sulfate (dilute)" := by
      simpa [hasKey] using hcu
    cases tB : hasTag e.type "Base" with
    | false => exact hbs (by simp [basesOf, tB])
    | true => exact h4 ⟨hname, tB⟩
  have hr : ruleClauses [(name, e)] = [] := by
    unfold ruleClauses
    rw [hn, hdis, hpr]
    rfl
  unfold calculate_reaction
  rw [if_neg hnog, if_pos hr]
  simp

/-- C9: a selection holding exactly one entry, built from any catalog
chemical (its type and state copied from the catalog as the `Add` button
does) with any amount and moles, always yields the single-chemical clause
and `occurred = false` — no rule can fire with one entry. -/
theorem single_entry_no_reaction :
    ∀ (name : String) (e : Entry) (data : ChemData),
      chemLookup name = some data → e.type = data.type →
      e.state = data.state →
      calculate_reaction [(name, e)] = some ⟨false, [Clause.singleChem]⟩ := by
  intro name e data hd ht hst
  have hmem := mem_of_chemLookup hd
  have hall := List.all_eq_true.1 catalog_single_entry_safe _ hmem
  simp only [Bool.and_eq_true] at hall
  obtain ⟨⟨⟨c1, c2⟩, c3⟩, c4⟩ := hall
  apply calculate_reaction_singleton
  · rintro ⟨hx, hy⟩
    rw [ht] at hx hy
    rw [hx, hy] at c1
    exact absurd c1 (by decide)
  · rintro ⟨hx, hy⟩
    rw [ht] at hx hy
    rw [hx, hy] at c2
    exact absurd c2 (by decide)
  · rintro ⟨hw, hs⟩
    rw [hst] at hs
    have e1 : (name == "Water (H2O)") = true := by
      rw [hw]
      exact beq_self_eq_true _
    have e2 : (data.state == 'S') = true := by
      rw [hs]
      exact beq_self_eq_true _
    rw [e1, e2] at c3
    exact absurd c3 (by decide)
  · rintro ⟨hw, hy⟩
    rw [ht] at hy
    have e1 : (name == "Copper sulfate (dilute)") = true := by
      rw [hw]
      exact beq_self_eq_true _
    rw [e1, hy] at c4
    exact absurd c4 (by decide)

/-- C9 witness: a single 10 g sugar entry yields the single-chemical clause
and no reaction. -/
theorem single_entry_no_reaction_witness :
    chemLookup "Sugar (sucrose)" =
        some ⟨342.3, "Molecular Solid", 0, 'S', ⟨0xFF, 0xFA, 0xFA⟩⟩ ∧
      (⟨10, "g", 10/342.3, "Molecular Solid", ⟨0xFF, 0xFA, 0xFA⟩, 'S'⟩ :
          Entry).type =
        (⟨342.3, "Molecular Solid", 0, 'S', ⟨0xFF, 0xFA, 0xFA⟩⟩ :
          ChemData).type ∧
      calculate_reaction [("Sugar (sucrose)",
          ⟨10, "g", 10/342.3, "Molecular Solid", ⟨0xFF, 0xFA, 0xFA⟩, 'S'⟩)] =
        some ⟨false, [Clause.singleChem]⟩ :=
  ⟨rfl, rfl, single_entry_no_reaction _ _ _ rfl rfl rfl⟩

/-! ### C10 — solid normalization ignores the unit -/

/-- C10: for every solid chemical of the catalog, the result of
`standardize_amount` does not depend on the unit argument — the solid
branch never inspects it. -/
theorem solid_normalization_unit_independent :
    ∀ (chemical : String) (data : ChemData), chemLookup chemical = some data →
      data.state = 'S' → ∀ (amount : ℚ) (u1 u2 : String),
        standardize_amount chemical amount u1 =
          standardize_amount chemical amount u2 := by
  intro chemical data hd hs amount u1 u2
  have hne : data.state ≠ 'L' := by rw [hs]; decide
  simp [standardize_amount, hd, hne]

/-- C10 witness: normalizing 10 of table salt with unit "g" and with unit
"ml" agree. -/
theorem solid_normalization_unit_independent_witness :
    chemLookup "Sodium chloride (table salt)" =
        some ⟨58.44, "Ionic Solid", 0, 'S', ⟨0xF0, 0xF8, 0xFF⟩⟩ ∧
      (⟨58.44, "Ionic Solid", 0, 'S', ⟨0xF0, 0xF8, 0xFF⟩⟩ : ChemData).state =
        'S' ∧
      standardize_amount "Sodium chloride (table salt)" 10 "g" =
        standardize_amount "Sodium chloride (table salt)" 10 "ml" := by
  have hd : chemLookup "Sodium chloride (table salt)" =
      some ⟨58.44, "Ionic Solid", 0, 'S', ⟨0xF0, 0xF8, 0xFF⟩⟩ := rfl
  exact ⟨hd, rfl,
    solid_normalization_unit_independent _ _ hd rfl 10 "g" "ml"⟩
